import Mathlib

/-!
# Verification of the MSDSal standalone emulation engine (`hf_newcaps.c`)

A shallow embedding of the ISO14443A emulation engine from
`armsrc/Standalone/hf_newcaps.c`: the APDU replay matcher (`Reply2Reader`),
the command classifier and response builder inside `Emulation`, and the
fallback-identifier policy of `RunMod`.

Byte buffers are modelled as total functions `Nat → Nat` (the C buffers are
fixed arrays, zero-initialised; reads never fault, writes are explicit).
Machine bytes are `Nat`; no arithmetic in the embedded code can overflow a
byte (the single increment `uid[0]++` is guarded by `uid[0] < 255`).
External collaborators (the CRC primitive `AddCrc14A`, the modulation
preparation `prepare_tag_modulation`, and the canned responses built by
`SimulateIso14443aInit`) are parameters of the embedding.
-/

namespace HfNewcaps

/-- A byte buffer: total map from index to byte value. C arrays are
zero-initialised, so a fresh buffer is `fun _ => 0`. -/
abbrev Buffer := Nat → Nat

/-- View a byte list as a buffer (zero beyond the list), as for a
zero-initialised C array holding the list at offset 0. -/
def listBuf (l : List Nat) : Buffer := fun j => l.getD j 0

/-- `memcpy(&b[s], src, src.length)`: overwrite `b[s .. s+|src|)` with `src`. -/
def bufWrite (b : Buffer) (s : Nat) (src : List Nat) : Buffer :=
  fun j => if s ≤ j ∧ j < s + src.length then src.getD (j - s) 0 else b j

/-- Read `n` bytes of `b` starting at offset `s`, as a list. -/
def bufSlice (b : Buffer) (s n : Nat) : List Nat :=
  (List.range n).map fun i => b (s + i)

/-! ## APDU replay matcher: `Reply2Reader` (hf_newcaps.c lines 61-118) -/

/-- `reply01` from `Reply2Reader`: FCI answer for the select-MF command. -/
def reply01 : List Nat :=
  [0x6f, 0x15, 0x84, 0x0e, 0x31, 0x50, 0x41, 0x59, 0x2e, 0x53, 0x59, 0x53,
   0x2e, 0x44, 0x44, 0x46, 0x30, 0x31, 0xa5, 0x03, 0x08, 0x01, 0x01, 0x90, 0x00]

/-- `reply02` from `Reply2Reader`: FCI answer for select by DF name. -/
def reply02 : List Nat :=
  [0x6f, 0x37, 0x84, 0x0e, 0x4e, 0x43, 0x2e, 0x65, 0x43, 0x61, 0x72, 0x64,
   0x2e, 0x44, 0x44, 0x46, 0x30, 0x31, 0xa5, 0x25, 0x9f, 0x08, 0x01, 0x02,
   0x9f, 0x0c, 0x1e, 0x6e, 0x65, 0x77, 0x63, 0x61, 0x70, 0x65, 0x63, 0x00,
   0x05, 0xaa, 0x00, 0x00, 0x01, 0x88, 0x0a, 0x10, 0x00, 0x1a, 0x34, 0x00,
   0x00, 0x00, 0x00, 0x00, 0x00, 0x00, 0x00, 0xf8, 0x6a, 0x90, 0x00]

/-- `reply03` from `Reply2Reader`: answer for the read-binary command. -/
def reply03 : List Nat :=
  [0x6e, 0x65, 0x77, 0x63, 0x61, 0x70, 0x65, 0x63, 0x00, 0x05, 0xaa, 0x00,
   0x00, 0x01, 0x88, 0x0a, 0x10, 0x00, 0x1a, 0x34, 0x00, 0x00, 0x00, 0x00,
   0x00, 0x00, 0x00, 0x00, 0xf8, 0x6f, 0x90, 0x00]

/-- `cmd01` from `Reply2Reader`: select MF (CLA INS P1 P2 Lc, data 3f 00). -/
def cmd01 : List Nat := [0x00, 0xA4, 0x00, 0x00, 0x02, 0x3f, 0x00]

/-- `cmd02` from `Reply2Reader`: select by DF name NC.eCard.DDF01. -/
def cmd02 : List Nat :=
  [0x00, 0xA4, 0x04, 0x00, 0x0e,
   0x4e, 0x43, 0x2e, 0x65, 0x43, 0x61, 0x72, 0x64, 0x2e, 0x44, 0x44, 0x46, 0x30, 0x31]

/-- `cmd03` from `Reply2Reader`: read binary. -/
def cmd03 : List Nat := [0x00, 0xB0, 0x95, 0x00, 0x1e]

/-- The fixed 3-entry table `(p_apdu_cmd[i], p_apdu_response[i])` of
`Reply2Reader`, in table order. -/
def apduRules : List (List Nat × List Nat) :=
  [(cmd01, reply01), (cmd02, reply02), (cmd03, reply03)]

/-- The `tag_response_info_t` fields the engine manipulates at byte level:
the response buffer and its meaningful length `response_n`. -/
structure TagResponseInfo where
  response : Buffer
  response_n : Nat

/-- The loop body of `Reply2Reader` (lines 98-115), iterating the rule table
in order. A rule is skipped when `cmd_len < apdu_cmd_len[i]` (note: the C
guard does not add `apdu_start`); otherwise the pattern is compared against
the buffer at offset `apdu_start` (the `memcmp`), and on equality the
response is `received[0..apdu_start) ++ reply` with
`response_n = apdu_start + |reply|` and return value `0`. Exhausting the
table sets `response_n = 0` and returns `-1`. -/
def Reply2ReaderLoop (info : TagResponseInfo) (apdu_start : Nat) (received : Buffer)
    (cmd_len : Nat) : List (List Nat × List Nat) → TagResponseInfo × Int
  | [] => ({ info with response_n := 0 }, -1)
  | (pat, rep) :: rest =>
    if cmd_len < pat.length then
      Reply2ReaderLoop info apdu_start received cmd_len rest
    else if bufSlice received apdu_start pat.length = pat then
      ({ response := bufWrite (bufWrite info.response 0 (bufSlice received 0 apdu_start))
                       apdu_start rep,
         response_n := apdu_start + rep.length }, 0)
    else
      Reply2ReaderLoop info apdu_start received cmd_len rest

/-- `Reply2Reader` (lines 61-118): match the received buffer against the
fixed APDU table and build the echo-header + canned-body response. -/
def Reply2Reader (info : TagResponseInfo) (apdu_start : Nat) (received : Buffer)
    (cmd_len : Nat) : TagResponseInfo × Int :=
  Reply2ReaderLoop info apdu_start received cmd_len apduRules

/-! ## Emulation session: the loop body of `Emulation` (lines 165-305) -/

/-- Modelled from the spec: the ISO14443A protocol constants of
`protocols.h` (not part of the excerpt): REQUEST=0x26, HALT=0x50,
WAKEUP=0x52 (the standard WUPA value; the spec names the code without a
value), ANTICOLLISION/SELECT=0x93, RATS=0xE0. -/
def ISO14443A_CMD_REQA : Nat := 0x26

/-- Modelled from the spec: HALT code 0x50. -/
def ISO14443A_CMD_HALT : Nat := 0x50

/-- Modelled from the spec: WAKEUP code (standard WUPA value 0x52). -/
def ISO14443A_CMD_WUPA : Nat := 0x52

/-- Modelled from the spec: anticollision/select code 0x93. -/
def ISO14443A_CMD_ANTICOLL_OR_SELECT : Nat := 0x93

/-- Modelled from the spec: RATS code 0xE0. -/
def ISO14443A_CMD_RATS : Nat := 0xE0

/-- Semantic roles of the canned responses built once per session by the
external `SimulateIso14443aInit` (`RESP_INDEX_ATQA`, `RESP_INDEX_UIDC1`,
`RESP_INDEX_SAKC1`, `RESP_INDEX_RATS`). Their byte contents are a parameter
of the embedding (they are derived from the session identity by external
code). -/
inductive CannedIdx where
  | atqa | uidc1 | sakc1 | rats
deriving DecidableEq

/-- What the C variable `p_response` can point to: one of the canned
responses, or the dynamic response record. -/
inductive PResp where
  | canned (i : CannedIdx)
  | dynamic
deriving DecidableEq

/-- Per-session mutable state of `Emulation` that survives from one loop
iteration to the next: the receive buffer `receivedCmd` (stale bytes beyond
the current command persist), the dynamic response buffer, the carried
`p_response` pointer, and the bytes of the last successfully prepared
dynamic frame (standing in for the precompiled modulation data that
`EmSendPrecompiledCmd` would transmit for the dynamic record). -/
structure EmuState where
  recvBuf : Buffer
  dynBuf : Buffer
  pResponse : Option PResp
  lastDynFrame : List Nat

/-- The state of `Emulation` after local initialisation (lines 137-149):
zeroed buffers, `p_response = NULL`. -/
def initEmuState : EmuState :=
  { recvBuf := fun _ => 0, dynBuf := fun _ => 0, pResponse := none, lastDynFrame := [] }

/-- Observable outcome of one loop iteration: the bytes transmitted (if
any), whether the error backoff `SpinDelay(500)` of the
modulation-preparation failure path ran, and the final value of
`dynamic_response_info.response_n` for this iteration. -/
structure StepOut where
  transmitted : Option (List Nat)
  paused : Bool
  dynLen : Nat

/-- The classification phase of one iteration (lines 182-279): the ordered
decision list over the received buffer `recv` and command length `len`.
Returns the value assigned to `p_response` (branch 7 leaves the carried
value untouched), the dynamic response buffer after any writes, and
`dynamic_response_info.response_n` (reset to 0 at line 169 before this
phase). -/
def classifyCmd (st : EmuState) (recv : Buffer) (len : Nat) :
    Option PResp × Buffer × Nat :=
  if recv 0 = ISO14443A_CMD_REQA ∧ len = 1 then
    (some (.canned .atqa), st.dynBuf, 0)
  else if recv 0 = ISO14443A_CMD_HALT ∧ len = 4 then
    (none, st.dynBuf, 0)
  else if recv 0 = ISO14443A_CMD_WUPA ∧ len = 1 then
    (some (.canned .atqa), st.dynBuf, 0)
  else if recv 1 = 0x20 ∧ recv 0 = ISO14443A_CMD_ANTICOLL_OR_SELECT ∧ len = 2 then
    (some (.canned .uidc1), st.dynBuf, 0)
  else if recv 1 = 0x70 ∧ recv 0 = ISO14443A_CMD_ANTICOLL_OR_SELECT ∧ len = 9 then
    (some (.canned .sakc1), st.dynBuf, 0)
  else if recv 0 = ISO14443A_CMD_RATS ∧ len = 4 then
    (some (.canned .rats), st.dynBuf, 0)
  else if recv 0 = 0x02 ∨ recv 0 = 0x03 then
    let r := Reply2Reader ⟨st.dynBuf, 0⟩ 1 recv len
    (st.pResponse, r.1.response, r.1.response_n)
  else if recv 0 = 0x0A ∨ recv 0 = 0x0B then
    let r := Reply2Reader ⟨st.dynBuf, 0⟩ 2 recv len
    (st.pResponse, r.1.response, r.1.response_n)
  else if recv 0 = 0x1A ∨ recv 0 = 0x1B then
    (st.pResponse, st.dynBuf, 0)
  else if recv 0 = 0xAA ∨ recv 0 = 0xBB then
    (st.pResponse, bufWrite st.dynBuf 0 [Nat.xor (recv 0) 0x11], 2)
  else if recv 0 = 0xBA then
    (st.pResponse, bufWrite st.dynBuf 0 [0xAB, 0x01], 2)
  else if recv 0 = 0xCA ∨ recv 0 = 0xC2 then
    (st.pResponse, bufWrite st.dynBuf 0 [0xCA, 0x01], 2)
  else
    (st.pResponse, st.dynBuf, 0)

/-- The build-and-transmit phase of one iteration (lines 281-304), given the
classification outcome. `crc` is the external `AddCrc14A` (returns the two
checksum bytes computed over the payload); `prepOk` is the external
`prepare_tag_modulation` success predicate on the post-checksum frame;
`canned` gives the byte contents of the canned responses. On a dynamic
reply the two checksum bytes are appended in place and `response_n` grows
by 2; preparation failure runs the backoff and `continue`s (nothing
transmitted, `p_response` keeps the classification value); otherwise
whatever `p_response` points to is transmitted and the pointer cleared. -/
def buildPhase (crc : List Nat → Nat × Nat) (prepOk : List Nat → Bool)
    (canned : CannedIdx → List Nat) (st : EmuState) (recv : Buffer)
    (cls : Option PResp × Buffer × Nat) : EmuState × StepOut :=
  match cls with
  | (pSel, dynBuf1, dynN) =>
  if dynN > 0 then
    let payload := bufSlice dynBuf1 0 dynN
    let c := crc payload
    let dynBuf2 := bufWrite dynBuf1 dynN [c.1, c.2]
    let frame := bufSlice dynBuf2 0 (dynN + 2)
    if prepOk frame then
      ({ recvBuf := recv, dynBuf := dynBuf2, pResponse := none, lastDynFrame := frame },
       { transmitted := some frame, paused := false, dynLen := dynN + 2 })
    else
      ({ recvBuf := recv, dynBuf := dynBuf2, pResponse := pSel,
         lastDynFrame := st.lastDynFrame },
       { transmitted := none, paused := true, dynLen := dynN + 2 })
  else
    match pSel with
    | some (.canned i) =>
      ({ recvBuf := recv, dynBuf := dynBuf1, pResponse := none,
         lastDynFrame := st.lastDynFrame },
       { transmitted := some (canned i), paused := false, dynLen := dynN })
    | some .dynamic =>
      ({ recvBuf := recv, dynBuf := dynBuf1, pResponse := none,
         lastDynFrame := st.lastDynFrame },
       { transmitted := some st.lastDynFrame, paused := false, dynLen := dynN })
    | none =>
      ({ recvBuf := recv, dynBuf := dynBuf1, pResponse := none,
         lastDynFrame := st.lastDynFrame },
       { transmitted := none, paused := false, dynLen := dynN })

/-- One full iteration of the `Emulation` loop on a received command `cmd`
(its bytes; `len` is `cmd.length`): the command is written into the receive
buffer, classified, and answered. -/
def classifyStep (crc : List Nat → Nat × Nat) (prepOk : List Nat → Bool)
    (canned : CannedIdx → List Nat) (st : EmuState) (cmd : List Nat) :
    EmuState × StepOut :=
  let recv := bufWrite st.recvBuf 0 cmd
  buildPhase crc prepOk canned st recv (classifyCmd st recv cmd.length)

/-- Run the `Emulation` loop over a list of successfully received commands,
collecting what is transmitted for each. -/
def runEmu (crc : List Nat → Nat × Nat) (prepOk : List Nat → Bool)
    (canned : CannedIdx → List Nat) : EmuState → List (List Nat) → List (Option (List Nat))
  | _, [] => []
  | st, c :: cs =>
    let r := classifyStep crc prepOk canned st c
    r.2.transmitted :: runEmu crc prepOk canned r.1 cs

/-- A fresh session's replies to a command sequence: the session starts from
`initEmuState` (lines 137-149 zero all local buffers) and the canned set is
the one derived from the `SessionIdentity`. -/
def sessionReplies (crc : List Nat → Nat × Nat) (prepOk : List Nat → Bool)
    (canned : CannedIdx → List Nat) (cmds : List (List Nat)) : List (Option (List Nat)) :=
  runEmu crc prepOk canned initEmuState cmds

/-! ## Session result codes (`Emulation` return paths, lines 155-161,
174-179, 306) -/

/-- Modelled from the spec: the host result codes `PM3_SUCCESS`,
`PM3_EFATAL` and `PM3_EOPABORTED` of the shared error-code header (not part
of the excerpt); only their distinctness matters here. -/
inductive PM3Ret where
  | success | efatal | eopaborted
deriving DecidableEq

/-- The command loop of `Emulation` (lines 165-305) driven by a list of
reception outcomes: `none` means `GetIso14443aCommandFromReader` reported
failure (return `PM3_EOPABORTED`, line 178); `some cmd` is a received
command, processed by `classifyStep`. An exhausted list means the loop is
still running (`none` result: no return value yet). -/
def emulationLoop (crc : List Nat → Nat × Nat) (prepOk : List Nat → Bool)
    (canned : CannedIdx → List Nat) : EmuState → List (Option (List Nat)) → Option PM3Ret
  | _, [] => none
  | _, none :: _ => some .eopaborted
  | st, some cmd :: rest =>
    emulationLoop crc prepOk canned (classifyStep crc prepOk canned st cmd).1 rest

/-- `Emulation` (lines 120-307) as a function of the initialization outcome
(`SimulateIso14443aInit` succeeding or not, line 155) and the reception
outcomes: failed initialization returns `PM3_EFATAL` before the loop; the
trailing `return PM3_SUCCESS` (line 306) sits after an infinite loop. -/
def Emulation (crc : List Nat → Nat × Nat) (prepOk : List Nat → Bool)
    (canned : CannedIdx → List Nat) (initOk : Bool)
    (recvs : List (Option (List Nat))) : Option PM3Ret :=
  if initOk then emulationLoop crc prepOk canned initEmuState recvs
  else some .efatal

/-! ## Mode controller fallback-identifier policy (`RunMod`, lines 328,
350-365) -/

/-- The initial fallback identifier `uid` of `RunMod` (line 328; only the
first 4 of the 10 bytes are initialised, the rest are zero). -/
def initUid : List Nat := [0xbf, 0x88, 0x69, 0x3e, 0, 0, 0, 0, 0, 0]

/-- The fallback-identifier update of `RunMod` (lines 354-364): after a
reading attempt with outcome `readOk`, if the attempt failed and `uid[0] <
255` then `uid[0]++`, otherwise the identifier is unchanged. -/
def fallbackUpdate (uid : List Nat) (readOk : Bool) : List Nat :=
  if readOk = false ∧ uid.getD 0 0 < 255 then uid.set 0 (uid.getD 0 0 + 1) else uid

/-- The identifier after `n` consecutive failed reading attempts. -/
def fallbackWalk (uid : List Nat) : Nat → List Nat
  | 0 => uid
  | n + 1 => fallbackWalk (fallbackUpdate uid false) n

/-- A rule of the APDU table is considered and matches, in the code's sense
(lines 100-109): the command length is at least the pattern length (the C
guard `cmd_len < apdu_cmd_len[i]` fails) and the `memcmp` of the pattern
against the receive buffer at offset `apdu_start` finds equality. -/
def apduRuleMatches (received : Buffer) (cmd_len apdu_start : Nat) (pat : List Nat) : Prop :=
  pat.length ≤ cmd_len ∧ bufSlice received apdu_start pat.length = pat

/-! ## Concrete collaborator instances used for evaluation witnesses -/

/-- A concrete stand-in for the external checksum primitive, used to
evaluate the engine on closed inputs. -/
def testCrc : List Nat → Nat × Nat := fun _ => (0xde, 0xad)

/-- A concrete stand-in for the modulation-preparation collaborator that
always succeeds. -/
def testPrep : List Nat → Bool := fun _ => true

/-- A concrete stand-in for the modulation-preparation collaborator that
always fails. -/
def testPrepFail : List Nat → Bool := fun _ => false

/-- A concrete canned-response set for closed evaluations. -/
def testCanned : CannedIdx → List Nat := fun i =>
  match i with
  | .atqa => [0x04, 0x00]
  | .uidc1 => [0xbf, 0x88, 0x69, 0x3e, 0x08]
  | .sakc1 => [0x20, 0xfc, 0x70]
  | .rats => [0x0a, 0x78]

/-! ## Buffer lemmas -/

lemma bufWrite_apply_of_ge (b : Buffer) (s : Nat) (src : List Nat) (j : Nat)
    (h : s + src.length ≤ j) : bufWrite b s src j = b j := by
  simp only [bufWrite]
  exact if_neg (by omega)

lemma bufWrite_apply_of_lt (b : Buffer) (s : Nat) (src : List Nat) (j : Nat)
    (h : j < s) : bufWrite b s src j = b j := by
  simp only [bufWrite]
  exact if_neg (by omega)

lemma bufWrite_zero_apply (b : Buffer) (src : List Nat) (j : Nat)
    (h : j < src.length) : bufWrite b 0 src j = src.getD j 0 := by
  simp only [bufWrite]
  rw [if_pos ⟨Nat.zero_le j, by omega⟩, Nat.sub_zero]

@[simp] lemma bufSlice_length (b : Buffer) (s n : Nat) : (bufSlice b s n).length = n := by
  simp [bufSlice]

lemma bufSlice_add (b : Buffer) (m n : Nat) :
    bufSlice b 0 (m + n) = bufSlice b 0 m ++ bufSlice b m n := by
  simp only [bufSlice, List.range_add, List.map_append, List.map_map]
  congr 1
  apply List.map_congr_left
  intro i _
  simp [Function.comp, Nat.zero_add]

lemma bufSlice_bufWrite_self (b : Buffer) (s : Nat) (src : List Nat) :
    bufSlice (bufWrite b s src) s src.length = src := by
  apply List.ext_getElem
  · simp
  · intro i h1 h2
    simp only [bufSlice, List.getElem_map, List.getElem_range]
    have hi : i < src.length := by simpa using h1
    rw [bufWrite]
    rw [if_pos ⟨Nat.le_add_right s i, by omega⟩]
    have : s + i - s = i := by omega
    rw [this]
    exact src.getD_eq_getElem 0 hi

lemma bufSlice_bufWrite_before (b : Buffer) (s : Nat) (src : List Nat) (n : Nat)
    (h : n ≤ s) : bufSlice (bufWrite b s src) 0 n = bufSlice b 0 n := by
  simp only [bufSlice]
  apply List.map_congr_left
  intro i hi
  have : i < n := List.mem_range.mp hi
  rw [bufWrite_apply_of_lt]
  omega

/-- The response content written by a successful `Reply2Reader` match:
header echo followed by the canned reply body. -/
lemma response_content (b received : Buffer) (a : Nat) (rep : List Nat) :
    bufSlice (bufWrite (bufWrite b 0 (bufSlice received 0 a)) a rep) 0 (a + rep.length) =
      bufSlice received 0 a ++ rep := by
  rw [bufSlice_add]
  congr 1
  · rw [bufSlice_bufWrite_before _ _ _ _ le_rfl]
    have h := bufSlice_bufWrite_self b 0 (bufSlice received 0 a)
    rwa [bufSlice_length] at h
  · exact bufSlice_bufWrite_self _ a rep

/-- The frame assembled by the response builder: payload followed by the two
checksum bytes. -/
lemma frame_content (b : Buffer) (n c1 c2 : Nat) :
    bufSlice (bufWrite b n [c1, c2]) 0 (n + 2) = bufSlice b 0 n ++ [c1, c2] := by
  rw [bufSlice_add]
  congr 1
  · exact bufSlice_bufWrite_before _ _ _ _ le_rfl
  · exact bufSlice_bufWrite_self b n [c1, c2]

/-! ## Classifier branch lemmas -/

lemma classifyCmd_reqa (st : EmuState) (recv : Buffer) (h0 : recv 0 = 0x26) :
    classifyCmd st recv 1 = (some (.canned .atqa), st.dynBuf, 0) := by
  simp [classifyCmd, ISO14443A_CMD_REQA, h0]

lemma classifyCmd_halt (st : EmuState) (recv : Buffer) (h0 : recv 0 = 0x50) :
    classifyCmd st recv 4 = (none, st.dynBuf, 0) := by
  simp [classifyCmd, ISO14443A_CMD_REQA, ISO14443A_CMD_HALT, h0]

lemma classifyCmd_wupa (st : EmuState) (recv : Buffer) (h0 : recv 0 = 0x52) :
    classifyCmd st recv 1 = (some (.canned .atqa), st.dynBuf, 0) := by
  simp [classifyCmd, ISO14443A_CMD_REQA, ISO14443A_CMD_HALT, ISO14443A_CMD_WUPA, h0]

lemma classifyCmd_uidc1 (st : EmuState) (recv : Buffer) (h0 : recv 0 = 0x93)
    (h1 : recv 1 = 0x20) :
    classifyCmd st recv 2 = (some (.canned .uidc1), st.dynBuf, 0) := by
  simp [classifyCmd, ISO14443A_CMD_REQA, ISO14443A_CMD_HALT, ISO14443A_CMD_WUPA,
        ISO14443A_CMD_ANTICOLL_OR_SELECT, h0, h1]

lemma classifyCmd_sakc1 (st : EmuState) (recv : Buffer) (h0 : recv 0 = 0x93)
    (h1 : recv 1 = 0x70) :
    classifyCmd st recv 9 = (some (.canned .sakc1), st.dynBuf, 0) := by
  simp [classifyCmd, ISO14443A_CMD_REQA, ISO14443A_CMD_HALT, ISO14443A_CMD_WUPA,
        ISO14443A_CMD_ANTICOLL_OR_SELECT, h0, h1]

lemma classifyCmd_rats (st : EmuState) (recv : Buffer) (h0 : recv 0 = 0xE0) :
    classifyCmd st recv 4 = (some (.canned .rats), st.dynBuf, 0) := by
  simp [classifyCmd, ISO14443A_CMD_REQA, ISO14443A_CMD_HALT, ISO14443A_CMD_WUPA,
        ISO14443A_CMD_ANTICOLL_OR_SELECT, ISO14443A_CMD_RATS, h0]

lemma classifyCmd_chain (st : EmuState) (recv : Buffer) (len : Nat)
    (h0 : recv 0 = 0x1A ∨ recv 0 = 0x1B) :
    classifyCmd st recv len = (st.pResponse, st.dynBuf, 0) := by
  rcases h0 with h | h <;>
    simp [classifyCmd, ISO14443A_CMD_REQA, ISO14443A_CMD_HALT, ISO14443A_CMD_WUPA,
          ISO14443A_CMD_ANTICOLL_OR_SELECT, ISO14443A_CMD_RATS, h]

/-! ## Build-phase projection lemmas -/

lemma buildPhase_canned_transmitted (crc : List Nat → Nat × Nat)
    (prepOk : List Nat → Bool) (canned : CannedIdx → List Nat) (st : EmuState)
    (recv : Buffer) (i : CannedIdx) (buf : Buffer) :
    (buildPhase crc prepOk canned st recv (some (.canned i), buf, 0)).2.transmitted =
      some (canned i) := by
  simp [buildPhase]

lemma buildPhase_none_transmitted (crc : List Nat → Nat × Nat)
    (prepOk : List Nat → Bool) (canned : CannedIdx → List Nat) (st : EmuState)
    (recv : Buffer) (buf : Buffer) :
    (buildPhase crc prepOk canned st recv (none, buf, 0)).2.transmitted = none := by
  simp [buildPhase]

lemma buildPhase_none_pResponse (crc : List Nat → Nat × Nat)
    (prepOk : List Nat → Bool) (canned : CannedIdx → List Nat) (st : EmuState)
    (recv : Buffer) (buf : Buffer) :
    ((buildPhase crc prepOk canned st recv (none, buf, 0)).1).pResponse = none := by
  simp [buildPhase]

lemma classifyStep_eq (crc : List Nat → Nat × Nat) (prepOk : List Nat → Bool)
    (canned : CannedIdx → List Nat) (st : EmuState) (cmd : List Nat) :
    classifyStep crc prepOk canned st cmd =
      buildPhase crc prepOk canned st (bufWrite st.recvBuf 0 cmd)
        (classifyCmd st (bufWrite st.recvBuf 0 cmd) cmd.length) := rfl

/-! ## One-iteration behaviour on each classifier rule -/

lemma step_reqa (crc : List Nat → Nat × Nat) (prepOk : List Nat → Bool)
    (canned : CannedIdx → List Nat) (st : EmuState) (cmd : List Nat)
    (h0 : cmd.getD 0 0 = 0x26) (hl : cmd.length = 1) :
    (classifyStep crc prepOk canned st cmd).2.transmitted = some (canned .atqa) := by
  have hr : bufWrite st.recvBuf 0 cmd 0 = 0x26 := by
    rw [bufWrite_zero_apply _ _ _ (by omega)]; exact h0
  rw [classifyStep_eq, hl, classifyCmd_reqa st _ hr]
  exact buildPhase_canned_transmitted crc prepOk canned st _ _ _

lemma step_halt (crc : List Nat → Nat × Nat) (prepOk : List Nat → Bool)
    (canned : CannedIdx → List Nat) (st : EmuState) (cmd : List Nat)
    (h0 : cmd.getD 0 0 = 0x50) (hl : cmd.length = 4) :
    (classifyStep crc prepOk canned st cmd).2.transmitted = none ∧
      ((classifyStep crc prepOk canned st cmd).1).pResponse = none := by
  have hr : bufWrite st.recvBuf 0 cmd 0 = 0x50 := by
    rw [bufWrite_zero_apply _ _ _ (by omega)]; exact h0
  rw [classifyStep_eq, hl, classifyCmd_halt st _ hr]
  exact ⟨buildPhase_none_transmitted crc prepOk canned st _ _,
         buildPhase_none_pResponse crc prepOk canned st _ _⟩

lemma step_wupa (crc : List Nat → Nat × Nat) (prepOk : List Nat → Bool)
    (canned : CannedIdx → List Nat) (st : EmuState) (cmd : List Nat)
    (h0 : cmd.getD 0 0 = 0x52) (hl : cmd.length = 1) :
    (classifyStep crc prepOk canned st cmd).2.transmitted = some (canned .atqa) := by
  have hr : bufWrite st.recvBuf 0 cmd 0 = 0x52 := by
    rw [bufWrite_zero_apply _ _ _ (by omega)]; exact h0
  rw [classifyStep_eq, hl, classifyCmd_wupa st _ hr]
  exact buildPhase_canned_transmitted crc prepOk canned st _ _ _

lemma step_uidc1 (crc : List Nat → Nat × Nat) (prepOk : List Nat → Bool)
    (canned : CannedIdx → List Nat) (st : EmuState) (cmd : List Nat)
    (h0 : cmd.getD 0 0 = 0x93) (h1 : cmd.getD 1 0 = 0x20) (hl : cmd.length = 2) :
    (classifyStep crc prepOk canned st cmd).2.transmitted = some (canned .uidc1) := by
  have hr0 : bufWrite st.recvBuf 0 cmd 0 = 0x93 := by
    rw [bufWrite_zero_apply _ _ _ (by omega)]; exact h0
  have hr1 : bufWrite st.recvBuf 0 cmd 1 = 0x20 := by
    rw [bufWrite_zero_apply _ _ _ (by omega)]; exact h1
  rw [classifyStep_eq, hl, classifyCmd_uidc1 st _ hr0 hr1]
  exact buildPhase_canned_transmitted crc prepOk canned st _ _ _

lemma step_sakc1 (crc : List Nat → Nat × Nat) (prepOk : List Nat → Bool)
    (canned : CannedIdx → List Nat) (st : EmuState) (cmd : List Nat)
    (h0 : cmd.getD 0 0 = 0x93) (h1 : cmd.getD 1 0 = 0x70) (hl : cmd.length = 9) :
    (classifyStep crc prepOk canned st cmd).2.transmitted = some (canned .sakc1) := by
  have hr0 : bufWrite st.recvBuf 0 cmd 0 = 0x93 := by
    rw [bufWrite_zero_apply _ _ _ (by omega)]; exact h0
  have hr1 : bufWrite st.recvBuf 0 cmd 1 = 0x70 := by
    rw [bufWrite_zero_apply _ _ _ (by omega)]; exact h1
  rw [classifyStep_eq, hl, classifyCmd_sakc1 st _ hr0 hr1]
  exact buildPhase_canned_transmitted crc prepOk canned st _ _ _

lemma step_rats (crc : List Nat → Nat × Nat) (prepOk : List Nat → Bool)
    (canned : CannedIdx → List Nat) (st : EmuState) (cmd : List Nat)
    (h0 : cmd.getD 0 0 = 0xE0) (hl : cmd.length = 4) :
    (classifyStep crc prepOk canned st cmd).2.transmitted = some (canned .rats) := by
  have hr : bufWrite st.recvBuf 0 cmd 0 = 0xE0 := by
    rw [bufWrite_zero_apply _ _ _ (by omega)]; exact h0
  rw [classifyStep_eq, hl, classifyCmd_rats st _ hr]
  exact buildPhase_canned_transmitted crc prepOk canned st _ _ _

lemma step_chain (crc : List Nat → Nat × Nat) (prepOk : List Nat → Bool)
    (canned : CannedIdx → List Nat) (st : EmuState) (cmd : List Nat)
    (hp : st.pResponse = none) (h1 : 1 ≤ cmd.length)
    (h0 : cmd.getD 0 0 = 0x1A ∨ cmd.getD 0 0 = 0x1B) :
    (classifyStep crc prepOk canned st cmd).2.transmitted = none := by
  have hr0 : bufWrite st.recvBuf 0 cmd 0 = cmd.getD 0 0 :=
    bufWrite_zero_apply _ _ _ (by omega)
  rw [classifyStep_eq, classifyCmd_chain st _ cmd.length (by rw [hr0]; exact h0), hp]
  exact buildPhase_none_transmitted crc prepOk canned st _ _

/-! ## Claim theorems -/

/-- C2: for every received command matching one of classifier rules 1-6
(REQUEST len 1, HALT len 4, WAKEUP len 1, anticollision 0x93/0x20 len 2,
select 0x93/0x70 len 9, RATS len 4), the transmitted reply equals the
corresponding pre-built canned entry exactly (HALT's entry being silence),
with no checksum appended to a canned reply: the equality holds for every
checksum collaborator `crc`, which therefore does not enter the reply. -/
theorem classifier_canned_rules (crc : List Nat → Nat × Nat) (prepOk : List Nat → Bool)
    (canned : CannedIdx → List Nat) (st : EmuState) (cmd : List Nat) :
    ((cmd.getD 0 0 = ISO14443A_CMD_REQA ∧ cmd.length = 1) →
      (classifyStep crc prepOk canned st cmd).2.transmitted = some (canned .atqa)) ∧
    ((cmd.getD 0 0 = ISO14443A_CMD_HALT ∧ cmd.length = 4) →
      (classifyStep crc prepOk canned st cmd).2.transmitted = none) ∧
    ((cmd.getD 0 0 = ISO14443A_CMD_WUPA ∧ cmd.length = 1) →
      (classifyStep crc prepOk canned st cmd).2.transmitted = some (canned .atqa)) ∧
    ((cmd.getD 0 0 = ISO14443A_CMD_ANTICOLL_OR_SELECT ∧ cmd.getD 1 0 = 0x20 ∧
        cmd.length = 2) →
      (classifyStep crc prepOk canned st cmd).2.transmitted = some (canned .uidc1)) ∧
    ((cmd.getD 0 0 = ISO14443A_CMD_ANTICOLL_OR_SELECT ∧ cmd.getD 1 0 = 0x70 ∧
        cmd.length = 9) →
      (classifyStep crc prepOk canned st cmd).2.transmitted = some (canned .sakc1)) ∧
    ((cmd.getD 0 0 = ISO14443A_CMD_RATS ∧ cmd.length = 4) →
      (classifyStep crc prepOk canned st cmd).2.transmitted = some (canned .rats)) := by
  refine ⟨?_, ?_, ?_, ?_, ?_, ?_⟩
  · rintro ⟨h0, hl⟩; exact step_reqa crc prepOk canned st cmd h0 hl
  · rintro ⟨h0, hl⟩; exact (step_halt crc prepOk canned st cmd h0 hl).1
  · rintro ⟨h0, hl⟩; exact step_wupa crc prepOk canned st cmd h0 hl
  · rintro ⟨h0, h1, hl⟩; exact step_uidc1 crc prepOk canned st cmd h0 h1 hl
  · rintro ⟨h0, h1, hl⟩; exact step_sakc1 crc prepOk canned st cmd h0 h1 hl
  · rintro ⟨h0, hl⟩; exact step_rats crc prepOk canned st cmd h0 hl

/-- Witness for C2: a concrete REQA command in a fresh session is answered
with the canned answer-to-request entry, exactly. -/
theorem classifier_canned_rules_witness :
    (classifyStep testCrc testPrep testCanned initEmuState [0x26]).2.transmitted =
      some [0x04, 0x00] :=
  (classifier_canned_rules testCrc testPrep testCanned initEmuState [0x26]).1 ⟨rfl, rfl⟩

/-- C4 counterexample: the claim says that after a HALT no frame is
transmitted for any subsequent command until a new REQUEST or WAKEUP is
seen. In the code a RATS immediately after a HALT (neither being
REQUEST/WAKEUP) is answered with the canned RATS entry: the session
transmits `[none, some (canned rats)]` on the two commands. -/
theorem halt_no_suppression_counterexample :
    runEmu testCrc testPrep testCanned initEmuState
        [[0x50, 0x00, 0x57, 0xcd], [0xE0, 0x80, 0x31, 0x73]] =
      [none, some [0x0a, 0x78]] ∧
    (runEmu testCrc testPrep testCanned initEmuState
        [[0x50, 0x00, 0x57, 0xcd], [0xE0, 0x80, 0x31, 0x73]]).getD 1 none ≠ none := by
  constructor <;> decide

/-- C4 (amended): a HALT command (length 4, first byte 0x50) and every
chaining command with first byte in 0x1A/0x1B yield zero transmitted bytes
for that command; but HALT does not persist: the post-HALT state carries no
suppression marker (`p_response = NULL`), and a subsequent RATS command is
answered with the canned RATS entry even though no REQUEST/WAKEUP
intervened. -/
theorem halt_and_chaining_silence (crc : List Nat → Nat × Nat)
    (prepOk : List Nat → Bool) (canned : CannedIdx → List Nat) (st : EmuState)
    (cmd : List Nat) :
    ((cmd.getD 0 0 = ISO14443A_CMD_HALT ∧ cmd.length = 4) →
      (classifyStep crc prepOk canned st cmd).2.transmitted = none ∧
      ((classifyStep crc prepOk canned st cmd).1).pResponse = none ∧
      ∀ cmd2 : List Nat, cmd2.getD 0 0 = ISO14443A_CMD_RATS → cmd2.length = 4 →
        (classifyStep crc prepOk canned
            (classifyStep crc prepOk canned st cmd).1 cmd2).2.transmitted =
          some (canned .rats)) ∧
    ((st.pResponse = none ∧ 1 ≤ cmd.length ∧
        (cmd.getD 0 0 = 0x1A ∨ cmd.getD 0 0 = 0x1B)) →
      (classifyStep crc prepOk canned st cmd).2.transmitted = none) := by
  constructor
  · rintro ⟨h0, hl⟩
    obtain ⟨ht, hp⟩ := step_halt crc prepOk canned st cmd h0 hl
    exact ⟨ht, hp, fun cmd2 h2 hl2 => step_rats crc prepOk canned _ cmd2 h2 hl2⟩
  · rintro ⟨hp, h1, h0⟩
    exact step_chain crc prepOk canned st cmd hp h1 h0

/-- Witness for the amended C4: concrete HALT is silent and a concrete RATS
right after it is answered. -/
theorem halt_and_chaining_silence_witness :
    (classifyStep testCrc testPrep testCanned initEmuState
        [0x50, 0x00, 0x57, 0xcd]).2.transmitted = none ∧
    (classifyStep testCrc testPrep testCanned
        (classifyStep testCrc testPrep testCanned initEmuState
          [0x50, 0x00, 0x57, 0xcd]).1 [0xE0, 0x80, 0x31, 0x73]).2.transmitted =
      some [0x0a, 0x78] :=
  ⟨((halt_and_chaining_silence testCrc testPrep testCanned initEmuState
      [0x50, 0x00, 0x57, 0xcd]).1 ⟨rfl, rfl⟩).1,
   ((halt_and_chaining_silence testCrc testPrep testCanned initEmuState
      [0x50, 0x00, 0x57, 0xcd]).1 ⟨rfl, rfl⟩).2.2 [0xE0, 0x80, 0x31, 0x73] rfl rfl⟩

/-- C5 counterexample: the claim's command `[0x00,0xA4,0x00,0x00,0x02,0x3F,0x00]`
of length 7 with headerPrefixLen 1 does NOT match table rule 1: the matcher
compares the pattern against the received bytes starting at offset 1 (the
transport header is skipped, not part of the pattern), so the comparison
sees `0xA4 ≠ 0x00` and every rule fails; the matcher returns `-1` (NoMatch)
with reported length 0, not the rule-1 response. -/
theorem select_mf_scenario_counterexample :
    (Reply2Reader ⟨fun _ => 0, 0⟩ 1
        (listBuf [0x00, 0xA4, 0x00, 0x00, 0x02, 0x3F, 0x00]) 7).2 = -1 ∧
    (Reply2Reader ⟨fun _ => 0, 0⟩ 1
        (listBuf [0x00, 0xA4, 0x00, 0x00, 0x02, 0x3F, 0x00]) 7).1.response_n = 0 := by
  constructor <;> decide

/-- C5 (amended): the received command carrying the select-MF APDU *after*
one transport-header byte — `[0x00] ++ [0x00,0xA4,0x00,0x00,0x02,0x3F,0x00]`,
length 8 — processed with headerPrefixLen 1 matches table rule 1 and
produces the response `[0x00] ++ reply01` with length `1 + |reply01|` = 26
and return code 0. -/
theorem select_mf_scenario_amended :
    (Reply2Reader ⟨fun _ => 0, 0⟩ 1 (listBuf ([0x00] ++ cmd01)) 8).2 = 0 ∧
    (Reply2Reader ⟨fun _ => 0, 0⟩ 1 (listBuf ([0x00] ++ cmd01)) 8).1.response_n =
      1 + reply01.length ∧
    bufSlice (Reply2Reader ⟨fun _ => 0, 0⟩ 1
        (listBuf ([0x00] ++ cmd01)) 8).1.response 0 (1 + reply01.length) =
      0x00 :: reply01 := by
  refine ⟨?_, ?_, ?_⟩ <;> decide

/-- C1 (code bug): the claim — matching the spec — requires a rule with
`receivedLen < headerPrefixLen + |pattern|` to be skipped, and the matcher
to return NoMatch without reading received bytes beyond `receivedLen`. The
code's guard is `cmd_len < |pattern|`, without the prefix: with
headerPrefixLen 1 and `receivedLen = 5 < 1 + |cmd03| = 6`, a receive buffer
holding `[0x02,0x00,0xB0,0x95,0x00]` with the stale byte `0x1e` at index 5
(beyond the received length) makes the `memcmp` read index 5 and match rule
3, returning success with length `1 + |reply03| = 33` instead of NoMatch. -/
theorem apdu_matcher_oob_match_bug :
    5 < 1 + cmd03.length ∧
    (Reply2Reader ⟨fun _ => 0, 0⟩ 1
        (listBuf [0x02, 0x00, 0xB0, 0x95, 0x00, 0x1e]) 5).2 = 0 ∧
    (Reply2Reader ⟨fun _ => 0, 0⟩ 1
        (listBuf [0x02, 0x00, 0xB0, 0x95, 0x00, 0x1e]) 5).1.response_n =
      1 + reply03.length := by
  refine ⟨?_, ?_, ?_⟩ <;> decide

/-- C6: each failed card selection with fallback first byte < 255
increments the first byte by 1 and otherwise (saturated, or successful
selection) leaves the identifier unchanged; 5 consecutive failed selections
starting from `[0xbf,0x88,0x69,0x3e]` use the first-byte sequence
0xbf,0xc0,0xc1,0xc2,0xc3; and once the first byte is 255 it never
increments again. -/
theorem fallback_identifier_walk :
    (∀ uid : List Nat, uid.getD 0 0 < 255 →
      fallbackUpdate uid false = uid.set 0 (uid.getD 0 0 + 1)) ∧
    (∀ uid : List Nat, 255 ≤ uid.getD 0 0 → fallbackUpdate uid false = uid) ∧
    (∀ uid : List Nat, fallbackUpdate uid true = uid) ∧
    ((List.range 5).map (fun k => (fallbackWalk initUid k).getD 0 0) =
      [0xbf, 0xc0, 0xc1, 0xc2, 0xc3]) ∧
    (∀ (uid : List Nat) (n : Nat), uid.getD 0 0 = 255 →
      (fallbackWalk uid n).getD 0 0 = 255) := by
  refine ⟨?_, ?_, ?_, by decide, ?_⟩
  · intro uid h
    rw [fallbackUpdate, if_pos ⟨rfl, h⟩]
  · intro uid h
    rw [fallbackUpdate, if_neg]
    rintro ⟨-, hlt⟩
    omega
  · intro uid
    rw [fallbackUpdate, if_neg]
    rintro ⟨hf, -⟩
    exact absurd hf (by decide)
  · intro uid n
    induction n generalizing uid with
    | zero => intro h; exact h
    | succ n ih =>
      intro h
      show (fallbackWalk (fallbackUpdate uid false) n).getD 0 0 = 255
      have hu : fallbackUpdate uid false = uid := by
        rw [fallbackUpdate, if_neg]
        rintro ⟨-, hlt⟩
        omega
      rw [hu]
      exact ih uid h

/-- Witness for C6: one concrete failed selection increments 0xbf to 0xc0;
a saturated identifier stays at 255 over 7 further failures. -/
theorem fallback_identifier_walk_witness :
    fallbackUpdate [0xbf, 0x88, 0x69, 0x3e] false = [0xc0, 0x88, 0x69, 0x3e] ∧
    (fallbackWalk [255, 0x88, 0x69, 0x3e] 7).getD 0 0 = 255 :=
  ⟨(fallback_identifier_walk.1 [0xbf, 0x88, 0x69, 0x3e] (by decide)).trans (by decide),
   fallback_identifier_walk.2.2.2.2 [255, 0x88, 0x69, 0x3e] 7 (by decide)⟩

/-- C9: replies depend only on the received command bytes and the canned
set derived from the `SessionIdentity` (together with the fixed external
collaborators); two independent sessions initialised the same way produce
byte-identical reply sequences for the same received command sequence —
the session function is pure, with no hidden cross-session state. -/
theorem session_replies_deterministic (crc : List Nat → Nat × Nat)
    (prepOk : List Nat → Bool) (canned : CannedIdx → List Nat)
    (cmds : List (List Nat)) (out1 out2 : List (Option (List Nat)))
    (h1 : sessionReplies crc prepOk canned cmds = out1)
    (h2 : sessionReplies crc prepOk canned cmds = out2) : out1 = out2 :=
  h1.symm.trans h2

/-- Witness for C9: two runs of a fresh session on the same one-command
sequence produce the same concrete reply list. -/
theorem session_replies_deterministic_witness :
    sessionReplies testCrc testPrep testCanned [[0x26]] = [some [0x04, 0x00]] ∧
    ([some [0x04, 0x00]] : List (Option (List Nat))) = [some [0x04, 0x00]] :=
  ⟨by decide,
   session_replies_deterministic testCrc testPrep testCanned [[0x26]] _ _
     (by decide) (by decide)⟩

/-- No run of the command loop returns the success code: the loop only
exits by a failed reception. -/
lemma emulationLoop_ne_success (crc : List Nat → Nat × Nat)
    (prepOk : List Nat → Bool) (canned : CannedIdx → List Nat)
    (recvs : List (Option (List Nat))) :
    ∀ (st : EmuState) (r : PM3Ret),
      emulationLoop crc prepOk canned st recvs = some r → r = PM3Ret.eopaborted := by
  induction recvs with
  | nil => intro st r h; simp [emulationLoop] at h
  | cons o rest ih =>
    intro st r h
    cases o with
    | none =>
      simp only [emulationLoop, Option.some.injEq] at h
      exact h.symm
    | some cmd => exact ih _ r h

/-- C10: `Emulation` never returns the success code: every terminating
execution returns the fatal-initialization code (exactly when
initialization failed, before the loop runs) or the operator/link-abort
code (when a reception failed); the trailing success return is
unreachable. -/
theorem emulation_never_success (crc : List Nat → Nat × Nat)
    (prepOk : List Nat → Bool) (canned : CannedIdx → List Nat) (initOk : Bool)
    (recvs : List (Option (List Nat))) :
    (∀ r : PM3Ret, Emulation crc prepOk canned initOk recvs = some r →
      r = PM3Ret.efatal ∨ r = PM3Ret.eopaborted) ∧
    Emulation crc prepOk canned initOk recvs ≠ some PM3Ret.success ∧
    Emulation crc prepOk canned false recvs = some PM3Ret.efatal := by
  refine ⟨?_, ?_, rfl⟩
  · intro r h
    cases initOk with
    | false =>
      simp only [Emulation, Bool.false_eq_true, if_false, Option.some.injEq] at h
      exact Or.inl h.symm
    | true =>
      simp only [Emulation, if_true] at h
      exact Or.inr (emulationLoop_ne_success crc prepOk canned recvs _ r h)
  · intro h
    cases initOk with
    | false =>
      simp only [Emulation, Bool.false_eq_true, if_false, Option.some.injEq] at h
      exact PM3Ret.noConfusion h
    | true =>
      simp only [Emulation, if_true] at h
      exact PM3Ret.noConfusion
        (emulationLoop_ne_success crc prepOk canned recvs _ _ h)

/-- Witness for C10: a concrete session whose second reception fails
terminates with the operator-abort code, which the theorem classifies. -/
theorem emulation_never_success_witness :
    PM3Ret.eopaborted = PM3Ret.efatal ∨ PM3Ret.eopaborted = PM3Ret.eopaborted :=
  (emulation_never_success testCrc testPrep testCanned true
      [some [0x26], none]).1 PM3Ret.eopaborted (by decide)

/-- C3: whenever some rule of the APDU table matches (in the code's sense)
the matcher returns success (0), with response equal to the first
`apdu_start` bytes of the received buffer concatenated with the matching
rule's reply body and reported length `apdu_start + |reply|`; the first
matching rule in table order is the one used. -/
theorem apdu_matcher_success_contract (info : TagResponseInfo) (a : Nat)
    (received : Buffer) (len : Nat) :
    (apduRuleMatches received len a cmd01 →
      (Reply2Reader info a received len).2 = 0 ∧
      (Reply2Reader info a received len).1.response_n = a + reply01.length ∧
      bufSlice (Reply2Reader info a received len).1.response 0 (a + reply01.length) =
        bufSlice received 0 a ++ reply01) ∧
    (¬ apduRuleMatches received len a cmd01 → apduRuleMatches received len a cmd02 →
      (Reply2Reader info a received len).2 = 0 ∧
      (Reply2Reader info a received len).1.response_n = a + reply02.length ∧
      bufSlice (Reply2Reader info a received len).1.response 0 (a + reply02.length) =
        bufSlice received 0 a ++ reply02) ∧
    (¬ apduRuleMatches received len a cmd01 → ¬ apduRuleMatches received len a cmd02 →
      apduRuleMatches received len a cmd03 →
      (Reply2Reader info a received len).2 = 0 ∧
      (Reply2Reader info a received len).1.response_n = a + reply03.length ∧
      bufSlice (Reply2Reader info a received len).1.response 0 (a + reply03.length) =
        bufSlice received 0 a ++ reply03) := by
  refine ⟨?_, ?_, ?_⟩
  · rintro ⟨hle, heq⟩
    simp only [Reply2Reader, apduRules, Reply2ReaderLoop]
    rw [if_neg (Nat.not_lt.mpr hle), if_pos heq]
    exact ⟨rfl, rfl, response_content info.response received a reply01⟩
  · rintro h1 ⟨hle2, heq2⟩
    simp only [Reply2Reader, apduRules, Reply2ReaderLoop]
    by_cases hlt1 : len < cmd01.length
    · rw [if_pos hlt1, if_neg (Nat.not_lt.mpr hle2), if_pos heq2]
      exact ⟨rfl, rfl, response_content info.response received a reply02⟩
    · have hne1 : ¬(bufSlice received a cmd01.length = cmd01) :=
        fun he => h1 ⟨Nat.not_lt.mp hlt1, he⟩
      rw [if_neg hlt1, if_neg hne1, if_neg (Nat.not_lt.mpr hle2), if_pos heq2]
      exact ⟨rfl, rfl, response_content info.response received a reply02⟩
  · rintro h1 h2 ⟨hle3, heq3⟩
    simp only [Reply2Reader, apduRules, Reply2ReaderLoop]
    by_cases hlt1 : len < cmd01.length
    · rw [if_pos hlt1]
      by_cases hlt2 : len < cmd02.length
      · rw [if_pos hlt2, if_neg (Nat.not_lt.mpr hle3), if_pos heq3]
        exact ⟨rfl, rfl, response_content info.response received a reply03⟩
      · have hne2 : ¬(bufSlice received a cmd02.length = cmd02) :=
          fun he => h2 ⟨Nat.not_lt.mp hlt2, he⟩
        rw [if_neg hlt2, if_neg hne2, if_neg (Nat.not_lt.mpr hle3), if_pos heq3]
        exact ⟨rfl, rfl, response_content info.response received a reply03⟩
    · have hne1 : ¬(bufSlice received a cmd01.length = cmd01) :=
        fun he => h1 ⟨Nat.not_lt.mp hlt1, he⟩
      rw [if_neg hlt1, if_neg hne1]
      by_cases hlt2 : len < cmd02.length
      · rw [if_pos hlt2, if_neg (Nat.not_lt.mpr hle3), if_pos heq3]
        exact ⟨rfl, rfl, response_content info.response received a reply03⟩
      · have hne2 : ¬(bufSlice received a cmd02.length = cmd02) :=
          fun he => h2 ⟨Nat.not_lt.mp hlt2, he⟩
        rw [if_neg hlt2, if_neg hne2, if_neg (Nat.not_lt.mpr hle3), if_pos heq3]
        exact ⟨rfl, rfl, response_content info.response received a reply03⟩

/-- Witness for C3: a concrete I-block `[0x02] ++ cmd01` of length 8 with
headerPrefixLen 1 matches rule 1 and the response is the echoed header byte
followed by `reply01`. -/
theorem apdu_matcher_success_contract_witness :
    (Reply2Reader ⟨fun _ => 0, 0⟩ 1 (listBuf ([0x02] ++ cmd01)) 8).2 = 0 ∧
    (Reply2Reader ⟨fun _ => 0, 0⟩ 1 (listBuf ([0x02] ++ cmd01)) 8).1.response_n =
      1 + reply01.length ∧
    bufSlice (Reply2Reader ⟨fun _ => 0, 0⟩ 1
        (listBuf ([0x02] ++ cmd01)) 8).1.response 0 (1 + reply01.length) =
      bufSlice (listBuf ([0x02] ++ cmd01)) 0 1 ++ reply01 :=
  (apdu_matcher_success_contract ⟨fun _ => 0, 0⟩ 1 (listBuf ([0x02] ++ cmd01)) 8).1
    ⟨by decide, by decide⟩

/-- C7: for a dynamic reply of positive length, exactly one 2-byte checksum
computed over `payload[0..length)` is appended and the recorded length
grows by exactly 2 before modulation preparation; if preparation fails,
nothing is transmitted for that command and the backoff pause runs; if the
dynamic length is 0 (and no canned response was selected), nothing is
transmitted at all; and in every case the session loop goes on to process
every remaining command (one reply slot per received command). -/
theorem response_builder_contract (crc : List Nat → Nat × Nat)
    (prepOk : List Nat → Bool) (canned : CannedIdx → List Nat) (st : EmuState)
    (recv : Buffer) (pSel : Option PResp) (dynBuf1 : Buffer) (dynN : Nat) :
    (0 < dynN →
      (buildPhase crc prepOk canned st recv (pSel, dynBuf1, dynN)).2.dynLen = dynN + 2 ∧
      (prepOk (bufSlice dynBuf1 0 dynN ++
          [(crc (bufSlice dynBuf1 0 dynN)).1, (crc (bufSlice dynBuf1 0 dynN)).2]) = true →
        (buildPhase crc prepOk canned st recv (pSel, dynBuf1, dynN)).2.transmitted =
          some (bufSlice dynBuf1 0 dynN ++
            [(crc (bufSlice dynBuf1 0 dynN)).1, (crc (bufSlice dynBuf1 0 dynN)).2]) ∧
        (buildPhase crc prepOk canned st recv (pSel, dynBuf1, dynN)).2.paused = false) ∧
      (prepOk (bufSlice dynBuf1 0 dynN ++
          [(crc (bufSlice dynBuf1 0 dynN)).1, (crc (bufSlice dynBuf1 0 dynN)).2]) = false →
        (buildPhase crc prepOk canned st recv (pSel, dynBuf1, dynN)).2.transmitted = none ∧
        (buildPhase crc prepOk canned st recv (pSel, dynBuf1, dynN)).2.paused = true)) ∧
    ((dynN = 0 ∧ pSel = none) →
      (buildPhase crc prepOk canned st recv (pSel, dynBuf1, dynN)).2.transmitted = none) ∧
    (∀ (st' : EmuState) (cmds : List (List Nat)),
      (runEmu crc prepOk canned st' cmds).length = cmds.length) := by
  refine ⟨?_, ?_, ?_⟩
  · intro h
    simp only [buildPhase]
    rw [if_pos h, frame_content]
    refine ⟨?_, ?_, ?_⟩
    · split <;> rfl
    · intro hp
      rw [if_pos hp]
      exact ⟨rfl, rfl⟩
    · intro hp
      rw [if_neg]
      · exact ⟨rfl, rfl⟩
      · rw [hp]
        exact Bool.false_ne_true
  · rintro ⟨h0, hsel⟩
    subst h0
    subst hsel
    simp [buildPhase]
  · intro st' cmds
    induction cmds generalizing st' with
    | nil => rfl
    | cons c cs ih => simp [runEmu, ih]

/-- Witness for C7: a concrete ping command's dynamic reply gets the two
checksum bytes appended (length 2 becomes 4) and is transmitted when
preparation succeeds. -/
theorem response_builder_contract_witness :
    (buildPhase testCrc testPrep testCanned initEmuState (fun _ => 0)
        (none, listBuf [0xAB, 0x01], 2)).2.dynLen = 4 ∧
    (buildPhase testCrc testPrep testCanned initEmuState (fun _ => 0)
        (none, listBuf [0xAB, 0x01], 2)).2.transmitted =
      some [0xAB, 0x01, 0xde, 0xad] :=
  ⟨((response_builder_contract testCrc testPrep testCanned initEmuState (fun _ => 0)
      none (listBuf [0xAB, 0x01]) 2).1 (by decide)).1,
   (((response_builder_contract testCrc testPrep testCanned initEmuState (fun _ => 0)
      none (listBuf [0xAB, 0x01]) 2).1 (by decide)).2.1 (by decide)).1⟩

/-! ## Capacity bounds for the dynamic response buffer -/

/-- The matcher writes only below index 61 of the response buffer, and
reports a length of at most 61 (max prefix 2 + largest reply body 59). -/
lemma Reply2ReaderLoop_bound (rules : List (List Nat × List Nat))
    (info : TagResponseInfo) (a : Nat) (received : Buffer) (len : Nat)
    (hr : ∀ p ∈ rules, (p.2).length ≤ 59) (ha : a ≤ 2) :
    (Reply2ReaderLoop info a received len rules).1.response_n ≤ 61 ∧
    ∀ j, 61 ≤ j →
      (Reply2ReaderLoop info a received len rules).1.response j = info.response j := by
  induction rules with
  | nil => exact ⟨Nat.zero_le _, fun j hj => rfl⟩
  | cons p rest ih =>
    obtain ⟨pat, rep⟩ := p
    have hrep : rep.length ≤ 59 := hr (pat, rep) (List.mem_cons_self _ _)
    have hrest := ih fun q hq => hr q (List.mem_cons_of_mem _ hq)
    simp only [Reply2ReaderLoop]
    split
    · exact hrest
    · split
      · constructor
        · show a + rep.length ≤ 61
          omega
        · intro j hj
          show bufWrite (bufWrite info.response 0 (bufSlice received 0 a)) a rep j =
            info.response j
          rw [bufWrite_apply_of_ge _ _ _ _ (by omega),
              bufWrite_apply_of_ge _ _ _ _ (by simp; omega)]
      · exact hrest

lemma Reply2Reader_bound (info : TagResponseInfo) (a : Nat) (received : Buffer)
    (len : Nat) (ha : a ≤ 2) :
    (Reply2Reader info a received len).1.response_n ≤ 61 ∧
    ∀ j, 61 ≤ j →
      (Reply2Reader info a received len).1.response j = info.response j :=
  Reply2ReaderLoop_bound apduRules info a received len (by decide) ha

/-- Every classification result is of one of three shapes: untouched buffer
with length 0, a matcher result with prefix 1 or 2, or a short write of at
most 2 bytes at offset 0 with length 2. -/
lemma classifyCmd_prop (st : EmuState) (recv : Buffer) (len : Nat)
    (P : Option PResp × Buffer × Nat → Prop)
    (h1 : ∀ o : Option PResp, P (o, st.dynBuf, 0))
    (h2 : ∀ a, a ≤ 2 → P (st.pResponse,
      (Reply2Reader ⟨st.dynBuf, 0⟩ a recv len).1.response,
      (Reply2Reader ⟨st.dynBuf, 0⟩ a recv len).1.response_n))
    (h3 : ∀ src : List Nat, src.length ≤ 2 → P (st.pResponse, bufWrite st.dynBuf 0 src, 2)) :
    P (classifyCmd st recv len) := by
  unfold classifyCmd
  by_cases c1 : recv 0 = ISO14443A_CMD_REQA ∧ len = 1
  · rw [if_pos c1]; exact h1 _
  · rw [if_neg c1]
    by_cases c2 : recv 0 = ISO14443A_CMD_HALT ∧ len = 4
    · rw [if_pos c2]; exact h1 _
    · rw [if_neg c2]
      by_cases c3 : recv 0 = ISO14443A_CMD_WUPA ∧ len = 1
      · rw [if_pos c3]; exact h1 _
      · rw [if_neg c3]
        by_cases c4 : recv 1 = 0x20 ∧ recv 0 = ISO14443A_CMD_ANTICOLL_OR_SELECT ∧ len = 2
        · rw [if_pos c4]; exact h1 _
        · rw [if_neg c4]
          by_cases c5 : recv 1 = 0x70 ∧ recv 0 = ISO14443A_CMD_ANTICOLL_OR_SELECT ∧ len = 9
          · rw [if_pos c5]; exact h1 _
          · rw [if_neg c5]
            by_cases c6 : recv 0 = ISO14443A_CMD_RATS ∧ len = 4
            · rw [if_pos c6]; exact h1 _
            · rw [if_neg c6]
              by_cases c7 : recv 0 = 0x02 ∨ recv 0 = 0x03
              · rw [if_pos c7]; exact h2 1 (by omega)
              · rw [if_neg c7]
                by_cases c8 : recv 0 = 0x0A ∨ recv 0 = 0x0B
                · rw [if_pos c8]; exact h2 2 (by omega)
                · rw [if_neg c8]
                  by_cases c9 : recv 0 = 0x1A ∨ recv 0 = 0x1B
                  · rw [if_pos c9]; exact h1 _
                  · rw [if_neg c9]
                    by_cases c10 : recv 0 = 0xAA ∨ recv 0 = 0xBB
                    · rw [if_pos c10]; exact h3 [Nat.xor (recv 0) 0x11] (by simp)
                    · rw [if_neg c10]
                      by_cases c11 : recv 0 = 0xBA
                      · rw [if_pos c11]; exact h3 [0xAB, 0x01] (by simp)
                      · rw [if_neg c11]
                        by_cases c12 : recv 0 = 0xCA ∨ recv 0 = 0xC2
                        · rw [if_pos c12]; exact h3 [0xCA, 0x01] (by simp)
                        · rw [if_neg c12]; exact h1 _

/-- The classification phase reports a dynamic length of at most 61 and
writes nothing at or beyond index 61 of the dynamic buffer. -/
lemma classifyCmd_bound (st : EmuState) (recv : Buffer) (len : Nat) :
    (classifyCmd st recv len).2.2 ≤ 61 ∧
    ∀ j, 61 ≤ j → (classifyCmd st recv len).2.1 j = st.dynBuf j := by
  refine classifyCmd_prop st recv len
    (fun x => x.2.2 ≤ 61 ∧ ∀ j, 61 ≤ j → x.2.1 j = st.dynBuf j) ?_ ?_ ?_
  · exact fun o => ⟨Nat.zero_le _, fun j hj => rfl⟩
  · intro a ha
    exact ⟨(Reply2Reader_bound ⟨st.dynBuf, 0⟩ a recv len ha).1,
           fun j hj => (Reply2Reader_bound ⟨st.dynBuf, 0⟩ a recv len ha).2 j hj⟩
  · intro src hs
    refine ⟨?_, fun j hj => bufWrite_apply_of_ge _ _ _ _ (by omega)⟩
    show (2 : Nat) ≤ 61
    omega

/-- The build phase either leaves the dynamic buffer as classified or adds
the 2-byte checksum write at the classified length. -/
lemma buildPhase_dynBuf (crc : List Nat → Nat × Nat) (prepOk : List Nat → Bool)
    (canned : CannedIdx → List Nat) (st : EmuState) (recv : Buffer)
    (pSel : Option PResp) (dynBuf1 : Buffer) (dynN : Nat) :
    ((buildPhase crc prepOk canned st recv (pSel, dynBuf1, dynN)).1).dynBuf = dynBuf1 ∨
    ((buildPhase crc prepOk canned st recv (pSel, dynBuf1, dynN)).1).dynBuf =
      bufWrite dynBuf1 dynN
        [(crc (bufSlice dynBuf1 0 dynN)).1, (crc (bufSlice dynBuf1 0 dynN)).2] := by
  simp only [buildPhase]
  split
  · split
    · exact Or.inr rfl
    · exact Or.inr rfl
  · split <;> exact Or.inl rfl

/-- The build phase reports either the classified length plus the 2
checksum bytes, or the classified length unchanged. -/
lemma buildPhase_dynLen (crc : List Nat → Nat × Nat) (prepOk : List Nat → Bool)
    (canned : CannedIdx → List Nat) (st : EmuState) (recv : Buffer)
    (pSel : Option PResp) (dynBuf1 : Buffer) (dynN : Nat) :
    (buildPhase crc prepOk canned st recv (pSel, dynBuf1, dynN)).2.dynLen = dynN + 2 ∨
    (buildPhase crc prepOk canned st recv (pSel, dynBuf1, dynN)).2.dynLen = dynN := by
  simp only [buildPhase]
  split
  · split
    · exact Or.inl rfl
    · exact Or.inl rfl
  · split <;> exact Or.inr rfl

/-- C8: during any emulation-loop iteration the bytes written into the
fixed-capacity dynamic response buffer stay strictly below capacity 64
(every index at or beyond 64 is untouched — max write is headerPrefixLen 2
+ largest reply body 58 + 2 checksum bytes = 62), and the recorded length
never exceeds 64. -/
theorem dynamic_buffer_capacity (crc : List Nat → Nat × Nat)
    (prepOk : List Nat → Bool) (canned : CannedIdx → List Nat) (st : EmuState)
    (cmd : List Nat) :
    (∀ j, 64 ≤ j →
      ((classifyStep crc prepOk canned st cmd).1).dynBuf j = st.dynBuf j) ∧
    (classifyStep crc prepOk canned st cmd).2.dynLen ≤ 64 := by
  rw [classifyStep_eq]
  obtain ⟨hn, hb⟩ := classifyCmd_bound st (bufWrite st.recvBuf 0 cmd) cmd.length
  generalize hx : classifyCmd st (bufWrite st.recvBuf 0 cmd) cmd.length = x at hn hb ⊢
  obtain ⟨pSel, dynBuf1, dynN⟩ := x
  replace hn : dynN ≤ 61 := hn
  replace hb : ∀ j, 61 ≤ j → dynBuf1 j = st.dynBuf j := hb
  constructor
  · intro j hj
    rcases buildPhase_dynBuf crc prepOk canned st (bufWrite st.recvBuf 0 cmd)
        pSel dynBuf1 dynN with hd | hd
    · rw [hd]
      exact hb j (by omega)
    · rw [hd, bufWrite_apply_of_ge _ _ _ _ (by simp; omega)]
      exact hb j (by omega)
  · rcases buildPhase_dynLen crc prepOk canned st (bufWrite st.recvBuf 0 cmd)
        pSel dynBuf1 dynN with hl | hl
    · rw [hl]
      omega
    · rw [hl]
      omega

/-- Witness for C8: a concrete ping command leaves every byte at or beyond
index 64 untouched and records a length within capacity. -/
theorem dynamic_buffer_capacity_witness :
    ((classifyStep testCrc testPrep testCanned initEmuState [0xBA]).1).dynBuf 100 =
      initEmuState.dynBuf 100 ∧
    (classifyStep testCrc testPrep testCanned initEmuState [0xBA]).2.dynLen ≤ 64 :=
  ⟨(dynamic_buffer_capacity testCrc testPrep testCanned initEmuState [0xBA]).1 100
      (by decide),
   (dynamic_buffer_capacity testCrc testPrep testCanned initEmuState [0xBA]).2⟩

end HfNewcaps
